import Mathlib

/-!
Shallow embedding of the realtime-synchronization core of the
Modern-Todo-App repository (React/TypeScript frontend, Node/Express backend).

Embedded source files:
- backend/src/index.ts           (socket.io connection handling and relays)
- frontend/src/utils/socket.ts   (SocketService: reconnect, room and emit helpers)
- frontend/src/store/index.ts    (zustand todo store: addTodo, updateTodo, removeTodo)
- backend/src/routes/todos.ts    (todo CRUD routes over Prisma storage)
-/

/-- Priority enum of a todo, as validated by the routes:
LOW, MEDIUM, HIGH, URGENT. -/
inductive Priority where
  | LOW
  | MEDIUM
  | HIGH
  | URGENT
deriving DecidableEq, Repr

/-- Status enum of a todo, as validated by the routes:
TODO, IN_PROGRESS, COMPLETED, CANCELLED. -/
inductive Status where
  | TODO
  | IN_PROGRESS
  | COMPLETED
  | CANCELLED
deriving DecidableEq, Repr

/-- A todo entity, with the scalar fields shared by the backend Prisma
entity and the frontend cache entry. Due dates are abstracted to Nat
timestamps. Category associations are stored separately (join table). -/
structure Todo where
  id : String
  title : String
  description : Option String
  priority : Priority
  status : Status
  dueDate : Option Nat
  userId : String
deriving DecidableEq, Repr

/-- A comment entity (id, content, parent todo, author). -/
structure CommentE where
  id : String
  content : String
  todoId : String
  userId : String
deriving DecidableEq, Repr

/-! ## Client-side store (frontend/src/store/index.ts, useTodoStore) -/

/-- addTodo from the zustand todo store (store/index.ts lines 106-110):
set todos to the new todo consed in front of the previous list. -/
def addTodo (todo : Todo) (todos : List Todo) : List Todo :=
  todo :: todos

/-- A partial update object: each field optionally present, mirroring the
object-spread update in the store where present keys override. -/
structure TodoPatch where
  id : Option String
  title : Option String
  description : Option (Option String)
  priority : Option Priority
  status : Option Status
  dueDate : Option (Option Nat)
  userId : Option String
deriving DecidableEq, Repr

/-- The object spread applied by the store on a matching todo:
fields present in the patch override, absent fields are kept. -/
def mergeTodo (t : Todo) (p : TodoPatch) : Todo :=
  { id := p.id.getD t.id
    title := p.title.getD t.title
    description := p.description.getD t.description
    priority := p.priority.getD t.priority
    status := p.status.getD t.status
    dueDate := p.dueDate.getD t.dueDate
    userId := p.userId.getD t.userId }

/-- updateTodo from the zustand todo store (store/index.ts lines 112-118):
map over all todos, spreading the updates over the one whose id matches. -/
def storeUpdateTodo (i : String) (p : TodoPatch) (todos : List Todo) : List Todo :=
  todos.map (fun t => if t.id = i then mergeTodo t p else t)

/-- removeTodo from the zustand todo store (store/index.ts lines 120-124):
filter out the todo whose id matches. -/
def removeTodo (i : String) (todos : List Todo) : List Todo :=
  todos.filter (fun t => t.id ≠ i)

/-- A full todo payload viewed as a patch with every field present, as
produced by the socket handler that passes the whole event payload to
the store updateTodo action. -/
def toPatch (t : Todo) : TodoPatch :=
  { id := some t.id
    title := some t.title
    description := some t.description
    priority := some t.priority
    status := some t.status
    dueDate := some t.dueDate
    userId := some t.userId }

/-- The socket listener for a todo-updated event
(frontend/src/utils/socket.ts lines 69-74): it calls the store
updateTodo with the payload id and the full payload. -/
def onTodoUpdated (e : Todo) (todos : List Todo) : List Todo :=
  storeUpdateTodo e.id (toPatch e) todos

/-- Merging a full payload over any todo yields exactly the payload. -/
theorem mergeTodo_toPatch (t e : Todo) : mergeTodo t (toPatch e) = e := rfl

/-! ## Claims about the client-side reconciler (C4, C5) -/

/-- A sample cached todo used in concrete counterexamples and witnesses. -/
def todoT0 : Todo :=
  { id := "t1", title := "Buy milk", description := none
    priority := Priority.MEDIUM, status := Status.TODO
    dueDate := none, userId := "u1" }

/-- A first updated-event payload for the same entity id as todoT0. -/
def todoE1 : Todo :=
  { id := "t1", title := "Buy milk and eggs", description := some "store run"
    priority := Priority.HIGH, status := Status.IN_PROGRESS
    dueDate := some 100, userId := "u1" }

/-- A second updated-event payload for the same entity id as todoT0. -/
def todoE2 : Todo :=
  { id := "t1", title := "Buy milk only", description := none
    priority := Priority.LOW, status := Status.COMPLETED
    dueDate := none, userId := "u1" }

/-- C4 counterexample: delivering a created event for an identifier already
in the cache is not idempotent — addTodo prepends a second copy of todoT0,
so the cache changes. -/
theorem addTodo_duplicate_counterexample :
    addTodo todoT0 [todoT0] = [todoT0, todoT0] ∧ addTodo todoT0 [todoT0] ≠ [todoT0] := by
  constructor
  · rfl
  · decide

/-- C4 amended: addTodo always inserts the incoming entity at the head of
the collection with no duplicate-identifier check, so the number of cache
entries carrying the incoming id always grows by one, even when the id is
already present. -/
theorem addTodo_always_prepends (t : Todo) (todos : List Todo) :
    (addTodo t todos).head? = some t ∧
    (addTodo t todos).countP (fun x => x.id = t.id) =
      todos.countP (fun x => x.id = t.id) + 1 := by
  refine ⟨rfl, ?_⟩
  simp [addTodo, List.countP_cons]

/-- C5: for updated events E1 then E2 applied in that order, any cache
entry carrying the id of E2 afterwards equals the E2 payload wholesale —
never a merge of E1 and E2 fields, and independent of any timestamp. -/
theorem updated_event_last_write_wins (todos : List Todo) (e1 e2 t : Todo)
    (ht : t ∈ onTodoUpdated e2 (onTodoUpdated e1 todos)) (hid : t.id = e2.id) :
    t = e2 := by
  unfold onTodoUpdated storeUpdateTodo at ht
  rcases List.mem_map.mp ht with ⟨a, _, ha⟩
  by_cases h : a.id = e2.id
  · rw [if_pos h] at ha
    rw [← ha, mergeTodo_toPatch]
  · rw [if_neg h] at ha
    exact absurd (ha ▸ hid) h

/-- C5 witness: on the concrete cache containing todoT0 and the concrete
event pair todoE1 then todoE2, the entry carrying the shared id is exactly
the todoE2 payload. -/
theorem updated_event_last_write_wins_witness : todoE2 = todoE2 :=
  updated_event_last_write_wins [todoT0] todoE1 todoE2 todoE2 (by decide) (by decide)

/-! ## Client SocketService (frontend/src/utils/socket.ts) -/

/-- A message sent from the client socket to the server, one constructor
per emit performed by SocketService. -/
inductive ClientMsg where
  | joinUserRoomMsg (userId : String)
  | joinTeamRoomMsg (teamId : String)
  | leaveTeamRoomMsg (teamId : String)
  | todoCreatedMsg (t : Todo)
  | todoUpdatedMsg (t : Todo)
  | todoDeletedMsg (id : String)
  | commentAddedMsg (c : CommentE)
deriving DecidableEq, Repr

/-- The underlying socket.io-client handle: a connected flag and the list
of messages emitted through it so far. -/
structure ClientSocket where
  connected : Bool
  sent : List ClientMsg
deriving DecidableEq, Repr

/-- The mutable state of the SocketService singleton: an optional socket
handle, plus the reconnect counters (reconnectAttempts starts at 0,
maxReconnectAttempts is 5). -/
structure SocketServiceSt where
  socket : Option ClientSocket
  reconnectAttempts : Nat
  maxReconnectAttempts : Nat
deriving DecidableEq, Repr

/-- The SocketService state at construction: no socket, zero attempts,
maximum of 5 attempts. -/
def initialSocketService : SocketServiceSt :=
  { socket := none, reconnectAttempts := 0, maxReconnectAttempts := 5 }

/-- The truthiness of the optional-chain guard this.socket?.connected. -/
def socketConnected (s : SocketServiceSt) : Bool :=
  match s.socket with
  | some sk => sk.connected
  | none => false

/-- The shared shape of every guarded emit in SocketService: when the
socket exists and is connected, append the message to its sent list;
otherwise do nothing. -/
def emitIfConnected (m : ClientMsg) (s : SocketServiceSt) : SocketServiceSt :=
  match s.socket with
  | some sk =>
      if sk.connected then
        { s with socket := some { sk with sent := sk.sent ++ [m] } }
      else s
  | none => s

/-- joinUserRoom (socket.ts lines 116-120). -/
def joinUserRoom (userId : String) (s : SocketServiceSt) : SocketServiceSt :=
  emitIfConnected (ClientMsg.joinUserRoomMsg userId) s

/-- joinTeamRoom (socket.ts lines 122-126). -/
def joinTeamRoom (teamId : String) (s : SocketServiceSt) : SocketServiceSt :=
  emitIfConnected (ClientMsg.joinTeamRoomMsg teamId) s

/-- leaveTeamRoom (socket.ts lines 128-132). -/
def leaveTeamRoom (teamId : String) (s : SocketServiceSt) : SocketServiceSt :=
  emitIfConnected (ClientMsg.leaveTeamRoomMsg teamId) s

/-- emitTodoCreated (socket.ts lines 135-139). -/
def emitTodoCreated (t : Todo) (s : SocketServiceSt) : SocketServiceSt :=
  emitIfConnected (ClientMsg.todoCreatedMsg t) s

/-- emitTodoUpdated (socket.ts lines 141-145). -/
def emitTodoUpdated (t : Todo) (s : SocketServiceSt) : SocketServiceSt :=
  emitIfConnected (ClientMsg.todoUpdatedMsg t) s

/-- emitTodoDeleted (socket.ts lines 147-151). -/
def emitTodoDeleted (todoId : String) (s : SocketServiceSt) : SocketServiceSt :=
  emitIfConnected (ClientMsg.todoDeletedMsg todoId) s

/-- emitCommentAdded (socket.ts lines 154-158). -/
def emitCommentAdded (c : CommentE) (s : SocketServiceSt) : SocketServiceSt :=
  emitIfConnected (ClientMsg.commentAddedMsg c) s

/-- When the guard fails, a guarded emit leaves the state untouched. -/
theorem emitIfConnected_of_not_connected (m : ClientMsg) (s : SocketServiceSt)
    (h : socketConnected s = false) : emitIfConnected m s = s := by
  cases s with
  | mk sock ra ma =>
    cases sock with
    | none => rfl
    | some sk =>
        have hc : sk.connected = false := h
        simp [emitIfConnected, hc]

/-- C10: every SocketService room or emit operation is a silent no-op when
the socket is null or not connected — the state, including the list of
sent messages, is unchanged and no error is possible. -/
theorem socket_ops_noop_when_disconnected (s : SocketServiceSt)
    (uid tid did : String) (t : Todo) (c : CommentE)
    (h : socketConnected s = false) :
    joinUserRoom uid s = s ∧ joinTeamRoom tid s = s ∧ leaveTeamRoom tid s = s ∧
    emitTodoCreated t s = s ∧ emitTodoUpdated t s = s ∧
    emitTodoDeleted did s = s ∧ emitCommentAdded c s = s := by
  refine ⟨?_, ?_, ?_, ?_, ?_, ?_, ?_⟩ <;>
    exact emitIfConnected_of_not_connected _ s h

/-- C10 witness: on the freshly constructed service (socket null), the
seven operations at concrete arguments all leave the state unchanged. -/
theorem socket_ops_noop_when_disconnected_witness :
    joinUserRoom "u1" initialSocketService = initialSocketService ∧
    joinTeamRoom "tm1" initialSocketService = initialSocketService ∧
    leaveTeamRoom "tm1" initialSocketService = initialSocketService ∧
    emitTodoCreated todoT0 initialSocketService = initialSocketService ∧
    emitTodoUpdated todoT0 initialSocketService = initialSocketService ∧
    emitTodoDeleted "t1" initialSocketService = initialSocketService ∧
    emitCommentAdded { id := "c1", content := "hi", todoId := "t1", userId := "u1" }
      initialSocketService = initialSocketService :=
  socket_ops_noop_when_disconnected initialSocketService "u1" "tm1" "t1" todoT0
    { id := "c1", content := "hi", todoId := "t1", userId := "u1" } rfl

/-! ## Reconnection backoff (socket.ts lines 100-113, handleReconnect) -/

/-- handleReconnect: if the attempt budget is not exhausted, first
increment reconnectAttempts, then schedule a retry after
min(1000 * 2 ^ reconnectAttempts, 30000) milliseconds, computed from the
already-incremented counter; otherwise give up and schedule nothing.
Returns the new state and the scheduled delay, if any. -/
def handleReconnect (s : SocketServiceSt) : SocketServiceSt × Option Nat :=
  if s.reconnectAttempts < s.maxReconnectAttempts then
    let a := s.reconnectAttempts + 1
    ({ s with reconnectAttempts := a }, some (min (1000 * 2 ^ a) 30000))
  else
    (s, none)

/-- The list of delays scheduled by up to n successive failed attempts,
each connection failure invoking handleReconnect on the state left by the
previous one; collection stops when handleReconnect schedules nothing. -/
def reconnectDelays (s : SocketServiceSt) : Nat → List Nat
  | 0 => []
  | n + 1 =>
      match handleReconnect s with
      | (s2, some d) => d :: reconnectDelays s2 n
      | (_, none) => []

/-- C6 counterexample: the very first reconnect delay from the freshly
constructed service is 2000 ms, not the 1000 ms the stated 1s, 2s, 4s
schedule requires, because the attempt counter is incremented before the
delay is computed. -/
theorem first_reconnect_delay_counterexample :
    (handleReconnect initialSocketService).2 = some 2000 ∧
    (handleReconnect initialSocketService).2 ≠ some 1000 := by
  constructor
  · rfl
  · decide

/-- C6 amended: successive reconnect delays from a fresh service are
2s, 4s, 8s, 16s, 30s — the base delay doubles per attempt starting at
2000 ms, is capped at the configured 30000 ms maximum, and retrying
stops after the configured maximum of 5 attempts (asking for more
failures schedules no further delay). -/
theorem reconnect_delay_schedule :
    reconnectDelays initialSocketService 10 = [2000, 4000, 8000, 16000, 30000] := by
  decide

/-! ## Server-side registry (backend/src/index.ts, socket.io handling) -/

/-- One connected server-side socket: its id and the rooms it has joined. -/
structure ServerSocket where
  sid : String
  rooms : List String
deriving DecidableEq, Repr

/-- The server state: the list of currently connected sockets. -/
structure ServerState where
  sockets : List ServerSocket
deriving DecidableEq, Repr

/-- socket.join of socket.io: add the room to the membership set of the
socket; joining an already-joined room is a no-op. -/
def joinRoom (r : String) (sk : ServerSocket) : ServerSocket :=
  if r ∈ sk.rooms then sk else { sk with rooms := r :: sk.rooms }

/-- The connection handshake (index.ts line 73): the server installs no
authentication middleware and the connection handler performs no
credential check, so every connection attempt is accepted and the
presented token, if any, is ignored; the new socket starts in no rooms. -/
def acceptConnection (st : ServerState) (sid : String) (token : Option String) :
    ServerState :=
  { st with sockets := st.sockets ++ [{ sid := sid, rooms := [] }] }

/-- The join-user-room handler (index.ts lines 77-80): the named socket
joins the room user-(userId); no check ties userId to the socket. -/
def onJoinUserRoom (st : ServerState) (sid userId : String) : ServerState :=
  { st with sockets :=
      st.sockets.map (fun sk => if sk.sid = sid then joinRoom ("user-" ++ userId) sk else sk) }

/-- The join-team-room handler (index.ts lines 83-86). -/
def onJoinTeamRoom (st : ServerState) (sid teamId : String) : ServerState :=
  { st with sockets :=
      st.sockets.map (fun sk => if sk.sid = sid then joinRoom ("team-" ++ teamId) sk else sk) }

/-- The delivery set of socket.broadcast.emit, used by each of the
todo-updated, todo-created and todo-deleted relay handlers
(index.ts lines 88-101): every currently connected socket except the
sender, with no room scoping at all. -/
def relayRecipients (st : ServerState) (senderSid : String) : List String :=
  (st.sockets.filter (fun sk => sk.sid ≠ senderSid)).map ServerSocket.sid

/-- Whether the socket with the given id is currently joined to room r. -/
def inRoom (st : ServerState) (sid r : String) : Bool :=
  st.sockets.any (fun sk => sk.sid = sid && sk.rooms.contains r)

/-- Whether a socket with the given id is currently connected. -/
def isConnectedSid (st : ServerState) (sid : String) : Bool :=
  st.sockets.any (fun sk => sk.sid = sid)

/-- A concrete server state for the C1 counterexample: socket A is joined
to room user-1, socket B is joined to no room at all. -/
def serverStC1 : ServerState :=
  { sockets := [ { sid := "A", rooms := ["user-1"] }, { sid := "B", rooms := [] } ] }

/-- C1 counterexample: when A relays a todo event, B receives it although
B is joined to no room — delivery is not restricted to the sessions
joined to the room the event concerns. -/
theorem relay_not_room_scoped_counterexample :
    "B" ∈ relayRecipients serverStC1 "A" ∧ inRoom serverStC1 "B" "user-1" = false := by
  decide

/-- C1 amended: the todo relay handlers deliver the event to exactly the
currently connected sessions other than the originating one, regardless
of any room membership: a recipient is characterized by being connected
and distinct from the sender. -/
theorem relay_delivers_to_all_other_sockets (st : ServerState) (sender x : String) :
    x ∈ relayRecipients st sender ↔
      ((∃ sk ∈ st.sockets, sk.sid = x) ∧ x ≠ sender) := by
  unfold relayRecipients
  constructor
  · intro hx
    rcases List.mem_map.mp hx with ⟨sk, hsk, rfl⟩
    rcases List.mem_filter.mp hsk with ⟨hmem, hne⟩
    exact ⟨⟨sk, hmem, rfl⟩, by simpa using hne⟩
  · rintro ⟨⟨sk, hmem, rfl⟩, hne⟩
    exact List.mem_map.mpr ⟨sk, List.mem_filter.mpr ⟨hmem, by simpa using hne⟩, rfl⟩

/-- The server state reached by an anonymous connection (no token) that
then requests to join the user-42 room. -/
def serverStC2 : ServerState :=
  onJoinUserRoom (acceptConnection { sockets := [] } "S" none) "S" "42"

/-- C2 counterexample: a connection attempt presenting no credential
token at all is accepted, and the resulting session successfully joins a
user room — an anonymous session is admitted. -/
theorem anonymous_connection_admitted_counterexample :
    isConnectedSid serverStC2 "S" = true ∧ inRoom serverStC2 "S" "user-42" = true := by
  decide

/-- C2 amended: the handshake performs no credential validation — the
state after accepting a connection is identical whatever token is
presented, including none, and the new session is always admitted. -/
theorem handshake_ignores_credentials (st : ServerState) (sid : String)
    (token : Option String) :
    acceptConnection st sid token = acceptConnection st sid none ∧
    isConnectedSid (acceptConnection st sid token) sid = true := by
  refine ⟨rfl, ?_⟩
  simp [acceptConnection, isConnectedSid]

/-! ## Mutation API: todo routes over Prisma storage (routes/todos.ts) -/

/-- A category row: id, name, color, owning user. -/
structure Category where
  id : String
  name : String
  color : String
  userId : String
deriving DecidableEq, Repr

/-- The relational storage the todo routes run against: todo rows,
category rows, and the todoCategory join table as (todoId, categoryId)
pairs. -/
structure Storage where
  todos : List Todo
  categories : List Category
  todoCategories : List (String × String)
deriving DecidableEq, Repr

/-- A ChangeEvent as the spec describes it: one realtime message about a
todo state transition. -/
inductive ChangeEvent where
  | created (t : Todo)
  | updated (t : Todo)
  | deleted (id : String)
deriving DecidableEq, Repr

/-- The JSON response of a mutation route: HTTP status, the success flag,
and the todo carried in the data envelope, when any. -/
structure ApiResp where
  status : Nat
  success : Bool
  todo : Option Todo
deriving DecidableEq, Repr

/-- The outcome of running one mutation route: the response, the storage
it leaves behind, and the realtime events it emitted while doing so. -/
structure RouteResult where
  resp : ApiResp
  storage : Storage
  emitted : List ChangeEvent
deriving DecidableEq, Repr

/-- prisma.todo.findFirst with a where clause on id and userId, as used
by the update and delete routes for the ownership check. -/
def findTodo (st : Storage) (uid tid : String) : Option Todo :=
  st.todos.find? (fun t => t.id = tid && t.userId = uid)

/-- Whether a category row with the given id exists in storage, any
owner: this is the only constraint the database enforces on a nested
todoCategory create (a foreign key on categoryId), since the routes
never check category ownership. -/
def categoryExists (st : Storage) (cid : String) : Bool :=
  st.categories.any (fun k => k.id = cid)

/-- The request body of the create route after express-validator: title,
optional description, optional priority, optional due date, optional
category id list. -/
structure CreateInput where
  title : String
  description : Option String
  priority : Option Priority
  dueDate : Option Nat
  categoryIds : Option (List String)
deriving DecidableEq, Repr

/-- The POST / create-todo route (routes/todos.ts lines 164-231).
Title must be non-empty (400 validation failure otherwise); priority
defaults to MEDIUM when absent; the generated identifier is the fresh
argument; when categoryIds are provided the rows are nested-created in
the same prisma.todo.create, which is atomic, so a foreign-key failure
on any categoryId aborts the whole create (caught as a 500) and nothing
is stored. The route never touches the socket server, so it emits no
realtime event. The stored TODO status comes from the schema default.
Modelled from the spec: the Prisma schema file is not part of the
sources; its default status TODO for a new todo row is taken from the
spec sentence giving createTodo default status TODO. -/
def createTodoRoute (st : Storage) (uid : String) (inp : CreateInput)
    (fresh : String) : RouteResult :=
  if inp.title = "" then
    { resp := { status := 400, success := false, todo := none }, storage := st, emitted := [] }
  else
    let cids := inp.categoryIds.getD []
    let newTodo : Todo :=
      { id := fresh, title := inp.title, description := inp.description
        priority := inp.priority.getD Priority.MEDIUM, status := Status.TODO
        dueDate := inp.dueDate, userId := uid }
    if cids.all (fun c => categoryExists st c) then
      { resp := { status := 201, success := true, todo := some newTodo }
        storage :=
          { st with
              todos := st.todos ++ [newTodo]
              todoCategories := st.todoCategories ++ cids.map (fun c => (fresh, c)) }
        emitted := [] }
    else
      { resp := { status := 500, success := false, todo := none }, storage := st, emitted := [] }

/-- The request body of the update route after express-validator: every
field optional; a present description or dueDate may itself be null. -/
structure UpdateInput where
  title : Option String
  description : Option (Option String)
  priority : Option Priority
  status : Option Status
  dueDate : Option (Option Nat)
  categoryIds : Option (List String)
deriving DecidableEq, Repr

/-- The updateData object built by the update route: each provided field
overrides the stored one; id and userId are never touched. -/
def applyUpdateData (t : Todo) (inp : UpdateInput) : Todo :=
  { t with
      title := inp.title.getD t.title
      description := inp.description.getD t.description
      priority := inp.priority.getD t.priority
      status := inp.status.getD t.status
      dueDate := inp.dueDate.getD t.dueDate }

/-- The PUT /:id update-todo route (routes/todos.ts lines 234-326).
After the ownership check (404 when the todo is absent or foreign), and
when categoryIds is provided, the route first runs a standalone
prisma.todoCategory.deleteMany for the todo — a separately committed
write — and only then runs prisma.todo.update carrying the field updates
and the nested creates of the new associations; that second call is
atomic on its own, and when it fails on a foreign-key violation the
catch returns 500 with the deleteMany already durably applied. The route
never touches the socket server, so it emits no realtime event. -/
def updateTodoRoute (st : Storage) (uid tid : String) (inp : UpdateInput) :
    RouteResult :=
  match findTodo st uid tid with
  | none =>
      { resp := { status := 404, success := false, todo := none }, storage := st, emitted := [] }
  | some t =>
      match inp.categoryIds with
      | none =>
          let t2 := applyUpdateData t inp
          { resp := { status := 200, success := true, todo := some t2 }
            storage := { st with todos := st.todos.map (fun x => if x.id = tid then t2 else x) }
            emitted := [] }
      | some cids =>
          let st1 := { st with todoCategories := st.todoCategories.filter (fun p => p.1 ≠ tid) }
          if cids.all (fun c => categoryExists st c) then
            let t2 := applyUpdateData t inp
            { resp := { status := 200, success := true, todo := some t2 }
              storage :=
                { st1 with
                    todos := st1.todos.map (fun x => if x.id = tid then t2 else x)
                    todoCategories := st1.todoCategories ++ cids.map (fun c => (tid, c)) }
              emitted := [] }
          else
            { resp := { status := 500, success := false, todo := none }, storage := st1, emitted := [] }

/-! ## Claims about the mutation routes (C3, C7, C8, C9) -/

/-- An empty storage used in concrete route evaluations. -/
def storageC3 : Storage := { todos := [], categories := [], todoCategories := [] }

/-- A concrete valid create request: non-empty title, no priority, no
categories. -/
def createInpC3 : CreateInput :=
  { title := "Buy milk", description := none, priority := none
    dueDate := none, categoryIds := none }

/-- C3 counterexample: a successful createTodo mutation (status 201)
emits zero ChangeEvents, not exactly one — the route never reaches the
realtime layer. -/
theorem create_emits_zero_events_counterexample :
    (createTodoRoute storageC3 "u1" createInpC3 "t1").resp.status = 201 ∧
    (createTodoRoute storageC3 "u1" createInpC3 "t1").emitted.length = 0 ∧
    (createTodoRoute storageC3 "u1" createInpC3 "t1").emitted.length ≠ 1 := by
  decide

/-- C3 amended: the mutation routes emit no ChangeEvent at all, on any
input and any outcome — the storage write completes and the response is
returned without any realtime emission; the client-side emit helpers are
the only emitters and are not invoked by the mutation flow. -/
theorem mutation_routes_emit_nothing (st : Storage) (uid tid fresh : String)
    (ci : CreateInput) (ui : UpdateInput) :
    (createTodoRoute st uid ci fresh).emitted = [] ∧
    (updateTodoRoute st uid tid ui).emitted = [] := by
  constructor
  · unfold createTodoRoute
    split
    · rfl
    · dsimp only
      split <;> rfl
  · unfold updateTodoRoute
    split
    · rfl
    · split
      · rfl
      · split <;> rfl

/-- The storage for the category-replacement counterexample: the user u1
owns todo t1, which is associated to the existing category c1. -/
def storageC7 : Storage :=
  { todos := [todoT0]
    categories := [{ id := "c1", name := "Work", color := "#fff", userId := "u1" }]
    todoCategories := [("t1", "c1")] }

/-- An update request replacing the category list of a todo with a
single nonexistent category id. -/
def updateInpC7 : UpdateInput :=
  { title := none, description := none, priority := none, status := none
    dueDate := none, categoryIds := some ["cX"] }

/-- C7 counterexample: replacing the categories of t1 with the
nonexistent cX fails with 500, yet leaves the todo with NO category
associations — the old association was deleted and the new one was never
created, a state that is neither the full replacement nor the original
associations. -/
theorem category_replacement_not_atomic_counterexample :
    (updateTodoRoute storageC7 "u1" "t1" updateInpC7).resp.status = 500 ∧
    (updateTodoRoute storageC7 "u1" "t1" updateInpC7).storage.todoCategories = [] ∧
    ¬ ((updateTodoRoute storageC7 "u1" "t1" updateInpC7).storage.todoCategories
          = storageC7.todoCategories ∨
       (updateTodoRoute storageC7 "u1" "t1" updateInpC7).storage.todoCategories
          = [("t1", "cX")]) := by
  decide

/-- C7 amended: category replacement is not atomic. When the todo is
found, categoryIds is provided, and some requested category id does not
exist, the route answers 500 and leaves the todo with no category
associations at all: every association of this todo is gone (the
standalone deleteMany already committed) while none of the requested
ones was created; only associations of other todos survive. -/
theorem category_replacement_partial_on_failure (st : Storage) (uid tid : String)
    (inp : UpdateInput) (cids : List String) (t : Todo)
    (hfound : findTodo st uid tid = some t)
    (hc : inp.categoryIds = some cids)
    (hbad : cids.all (fun c => categoryExists st c) = false) :
    (updateTodoRoute st uid tid inp).resp.status = 500 ∧
    (∀ c : String, (tid, c) ∉ (updateTodoRoute st uid tid inp).storage.todoCategories) ∧
    (∀ p ∈ st.todoCategories, p.1 ≠ tid →
        p ∈ (updateTodoRoute st uid tid inp).storage.todoCategories) := by
  unfold updateTodoRoute
  simp only [hfound, hc]
  rw [if_neg (by simp [hbad])]
  refine ⟨rfl, ?_, ?_⟩
  · intro c hmem
    have h2 := (List.mem_filter.mp hmem).2
    simp at h2
  · intro p hp hne
    exact List.mem_filter.mpr ⟨hp, by simpa using hne⟩

/-- C7 witness: on the concrete storage storageC7, replacing the
categories of t1 with the nonexistent cX yields 500 and a todo stripped
of every category association. -/
theorem category_replacement_partial_on_failure_witness :
    (updateTodoRoute storageC7 "u1" "t1" updateInpC7).resp.status = 500 ∧
    (∀ c : String, ("t1", c) ∉ (updateTodoRoute storageC7 "u1" "t1" updateInpC7).storage.todoCategories) ∧
    (∀ p ∈ storageC7.todoCategories, p.1 ≠ "t1" →
        p ∈ (updateTodoRoute storageC7 "u1" "t1" updateInpC7).storage.todoCategories) :=
  category_replacement_partial_on_failure storageC7 "u1" "t1" updateInpC7 ["cX"]
    todoT0 (by decide) rfl (by decide)

/-- The storage for the category-ownership counterexample: the only
category, c2, is owned by user u2, and u1 is about to reference it. -/
def storageC8 : Storage :=
  { todos := []
    categories := [{ id := "c2", name := "Other", color := "#000", userId := "u2" }]
    todoCategories := [] }

/-- A create request from u1 referencing the category c2 owned by u2. -/
def createInpC8 : CreateInput :=
  { title := "x", description := none, priority := none
    dueDate := none, categoryIds := some ["c2"] }

/-- C8 counterexample: u1 creates a todo referencing c2, a category owned
by u2 — the route succeeds with 201 (no NotFoundError) and the foreign
category association is attached. -/
theorem foreign_category_attached_counterexample :
    (createTodoRoute storageC8 "u1" createInpC8 "t9").resp.status = 201 ∧
    (createTodoRoute storageC8 "u1" createInpC8 "t9").resp.status ≠ 404 ∧
    ("t9", "c2") ∈ (createTodoRoute storageC8 "u1" createInpC8 "t9").storage.todoCategories ∧
    (∀ k ∈ storageC8.categories, k.id = "c2" → k.userId ≠ "u1") := by
  decide

/-- C8 amended: createTodo checks only that each referenced category id
exists in the category table, never its ownership — whenever every
referenced id exists (whoever owns it) and the title is non-empty, the
create succeeds with 201 and every requested association, including ones
to categories of other users, is attached to the new todo. -/
theorem create_attaches_existing_categories (st : Storage) (uid : String)
    (inp : CreateInput) (fresh : String)
    (ht : inp.title ≠ "")
    (hex : (inp.categoryIds.getD []).all (fun c => categoryExists st c) = true) :
    (createTodoRoute st uid inp fresh).resp.status = 201 ∧
    ∀ c ∈ inp.categoryIds.getD [],
      (fresh, c) ∈ (createTodoRoute st uid inp fresh).storage.todoCategories := by
  unfold createTodoRoute
  rw [if_neg ht]
  dsimp only
  rw [if_pos hex]
  refine ⟨rfl, ?_⟩
  intro c hc
  exact List.mem_append_right _ (List.mem_map.mpr ⟨c, hc, rfl⟩)

/-- C8 witness: with the concrete storage storageC8 and the request of u1
referencing the u2-owned category c2, the create answers 201 and attaches
the association. -/
theorem create_attaches_existing_categories_witness :
    (createTodoRoute storageC8 "u1" createInpC8 "t9").resp.status = 201 ∧
    ∀ c ∈ createInpC8.categoryIds.getD [],
      ("t9", c) ∈ (createTodoRoute storageC8 "u1" createInpC8 "t9").storage.todoCategories :=
  create_attaches_existing_categories storageC8 "u1" createInpC8 "t9"
    (by decide) (by decide)

/-- C9: a create request with a non-empty title whose referenced
categories all exist succeeds with 201 and returns a todo whose priority
defaults to MEDIUM when unspecified and whose status is TODO; and any
request with an empty title fails with a 400 validation error, leaves
the storage unchanged, and returns no todo. -/
theorem createTodo_defaults (st : Storage) (uid : String) (inp : CreateInput)
    (fresh : String)
    (ht : inp.title ≠ "")
    (hp : inp.priority = none)
    (hex : (inp.categoryIds.getD []).all (fun c => categoryExists st c) = true) :
    ((createTodoRoute st uid inp fresh).resp.status = 201 ∧
     (∃ t : Todo, (createTodoRoute st uid inp fresh).resp.todo = some t ∧
        t.priority = Priority.MEDIUM ∧ t.status = Status.TODO ∧
        t.title = inp.title ∧ t.id = fresh ∧ t.userId = uid)) ∧
    ∀ inp2 : CreateInput, inp2.title = "" →
      (createTodoRoute st uid inp2 fresh).resp.status = 400 ∧
      (createTodoRoute st uid inp2 fresh).storage = st ∧
      (createTodoRoute st uid inp2 fresh).resp.todo = none := by
  constructor
  · unfold createTodoRoute
    rw [if_neg ht]
    dsimp only
    rw [if_pos hex]
    exact ⟨rfl, _, rfl, by simp [hp], rfl, rfl, rfl, rfl⟩
  · intro inp2 h2
    unfold createTodoRoute
    rw [if_pos h2]
    exact ⟨rfl, rfl, rfl⟩

/-- C9 witness: creating the todo Buy milk with no priority on the empty
storage returns 201 with priority MEDIUM and status TODO, and the
empty-title request is rejected with 400 leaving the storage unchanged. -/
theorem createTodo_defaults_witness :
    ((createTodoRoute storageC3 "u1" createInpC3 "t1").resp.status = 201 ∧
     (∃ t : Todo, (createTodoRoute storageC3 "u1" createInpC3 "t1").resp.todo = some t ∧
        t.priority = Priority.MEDIUM ∧ t.status = Status.TODO ∧
        t.title = createInpC3.title ∧ t.id = "t1" ∧ t.userId = "u1")) ∧
    ∀ inp2 : CreateInput, inp2.title = "" →
      (createTodoRoute storageC3 "u1" inp2 "t1").resp.status = 400 ∧
      (createTodoRoute storageC3 "u1" inp2 "t1").storage = storageC3 ∧
      (createTodoRoute storageC3 "u1" inp2 "t1").resp.todo = none :=
  createTodo_defaults storageC3 "u1" createInpC3 "t1" (by decide) rfl (by decide)
